import Mathlib

/-!
Verification of the ResearchGradeSystem validation core: a shallow embedding
of the wire-boundary parsers, record schema validators, structural graph
validator, evidence policy validator and integrity aggregator found under
`src/core/`, together with theorems settling the spec's claims about them.

Modelling conventions:
* Python strings are Lean `String`s (sequences of Unicode code points);
  `str.strip()` is modelled by `pyStrip`, which strips exactly the code
  points Python's `str.isspace()` accepts.
* Python exceptions are modelled by `Except PyError`: `TypeError`,
  `ValueError` and `AttributeError` are the three constructors and carry the
  message string.  A function that can raise returns `Except PyError α`.
* `repr(s)` of a string is modelled by `pyRepr`, which surrounds the text
  with single quotes and performs no escape processing: every claim below
  consumes error messages only through their literal category text, never
  through the escaped spelling of the interpolated value.
* Untyped wire input (JSON values) is the inductive `Wire`.
-/

/-- Python exception values as raised by the validation core: the constructor
is the exception class, the field its message. -/
inductive PyError where
  | typeError (msg : String)
  | valueError (msg : String)
  | attributeError (msg : String)
deriving DecidableEq, Repr

/-- True for the code points Python's `str.isspace()` accepts; `str.strip()`
removes exactly these from both ends.  Note U+00A0 (no-break space) is
whitespace for Python even though it is also one of the six "invisible"
code points the parsers check separately. -/
def pyIsSpace (c : Char) : Bool :=
  c.val == 0x09 || c.val == 0x0a || c.val == 0x0b || c.val == 0x0c ||
  c.val == 0x0d || c.val == 0x1c || c.val == 0x1d || c.val == 0x1e ||
  c.val == 0x1f || c.val == 0x20 || c.val == 0x85 || c.val == 0xa0 ||
  c.val == 0x1680 || (0x2000 ≤ c.val && c.val ≤ 0x200a) ||
  c.val == 0x2028 || c.val == 0x2029 || c.val == 0x202f ||
  c.val == 0x205f || c.val == 0x3000

/-- Python `value.strip()` with no arguments. -/
def pyStrip (s : String) : String :=
  String.mk (((s.data.dropWhile pyIsSpace).reverse.dropWhile pyIsSpace).reverse)

/-- Python `value.encode("ascii")` succeeds exactly when every code point is
below 128. -/
def pyIsAscii (s : String) : Bool :=
  s.data.all (fun c => c.val < 128)

/-- Python `repr` of a string, modelled without escape processing (see the
module comment). -/
def pyRepr (s : String) : String :=
  "\x27" ++ (s ++ "\x27")

/-- Python `repr` of a list of strings, e.g. `["a", "b"]` prints as
a bracketed, comma separated sequence of quoted entries. -/
def pyListRepr (xs : List String) : String :=
  "[" ++ (String.intercalate ", " (xs.map pyRepr) ++ "]")

/-- Untyped wire input: the JSON-shaped values the wire-boundary parsers
accept.  The numeric payloads are irrelevant to every parser below (only the
runtime type is inspected), but are kept so distinct inputs stay distinct. -/
inductive Wire where
  | none
  | bool (b : Bool)
  | int (n : Int)
  | float
  | str (s : String)
  | list (xs : List Wire)
  | dict (keys : List String)

/-- Python `type(wire).__name__` for the wire values. -/
def Wire.typeName : Wire → String
  | .none => "NoneType"
  | .bool _ => "bool"
  | .int _ => "int"
  | .float => "float"
  | .str _ => "str"
  | .list _ => "list"
  | .dict _ => "dict"

/-- Python `repr(wire)` for non-string wire values, modelled shallowly: the
parsers interpolate it into messages but no claim reads it back. -/
def Wire.pyReprW : Wire → String
  | .none => "None"
  | .bool true => "True"
  | .bool false => "False"
  | .int n => toString n
  | .float => "<float>"
  | .str s => pyRepr s
  | .list _ => "<list>"
  | .dict _ => "<dict>"

/-- GC-2 claim labels (`src/core/claim.py`, class `ClaimLabel`): exactly
four, case-sensitive. -/
inductive ClaimLabel where
  | DERIVED
  | COMPUTED
  | CITED
  | SPECULATIVE
deriving DecidableEq, Repr

/-- The `.value` of a `ClaimLabel` member. -/
def ClaimLabel.value : ClaimLabel → String
  | .DERIVED => "DERIVED"
  | .COMPUTED => "COMPUTED"
  | .CITED => "CITED"
  | .SPECULATIVE => "SPECULATIVE"

/-- The dataclass `Claim` of `src/core/claim.py`, fields as declared there:
`claim_id`, `statement`, `claim_label`, `step_id`, `evidence_ids`,
`claim_span`.  The dataclass declares NO `verify_falsify` field. -/
structure Claim where
  claim_id : String
  statement : String
  claim_label : ClaimLabel
  step_id : Option String
  evidence_ids : List String
  claim_span : Option (Int × Int)
deriving DecidableEq, Repr

/-- `Claim.is_supported` of `src/core/claim.py`: SPECULATIVE claims count as
supported; others are supported when they carry at least one evidence id. -/
def Claim.is_supported (c : Claim) : Bool :=
  if c.claim_label = ClaimLabel.SPECULATIVE then true
  else decide (c.evidence_ids.length > 0)

/-- GC-3 step status (`src/core/step.py`, class `StepStatus`). -/
inductive StepStatus where
  | UNCHECKED
  | CHECKED
  | FAILED
  | INDETERMINATE
deriving DecidableEq, Repr

/-- The dataclass `DerivationStep` of `src/core/step.py`. -/
structure DerivationStep where
  step_id : String
  claim_ids : List String
  step_status : StepStatus
  depends_on : List String
  status_reason : Option String
deriving DecidableEq, Repr

/-- GC-5 evidence type enum (`src/core/evidence.py`). -/
inductive EvidenceType where
  | DERIVATION
  | COMPUTATION
  | CITATION
deriving DecidableEq, Repr

/-- The `.value` of an `EvidenceType` member. -/
def EvidenceType.value : EvidenceType → String
  | .DERIVATION => "derivation"
  | .COMPUTATION => "computation"
  | .CITATION => "citation"

/-- GC-5 evidence status enum (`src/core/evidence.py`). -/
inductive EvidenceStatus where
  | PASS
  | FAIL
  | INDETERMINATE
deriving DecidableEq, Repr

/-- The `.value` of an `EvidenceStatus` member. -/
def EvidenceStatus.value : EvidenceStatus → String
  | .PASS => "pass"
  | .FAIL => "fail"
  | .INDETERMINATE => "indeterminate"

/-- GC-5 tight enum of indeterminate reasons (`src/core/evidence.py`). -/
inductive IndeterminateReason where
  | UNSUPPORTED
  | DOMAIN
  | SINGULARITY
  | TIMEOUT
  | MISSING_BC_IC
  | TOOL_ERROR
deriving DecidableEq, Repr

/-- The tagged union `EvidenceSource` of `src/core/evidence.py`: `kind` is a
string that its own `__post_init__` restricts to `step_id`, `tool_run_id` or
`citation_id`; the claims below never need that restriction, so the field is
kept as the string it is at runtime. -/
structure EvidenceSource where
  kind : String
  value : String
deriving DecidableEq, Repr

/-- The tagged union `PayloadRef` of `src/core/evidence.py`. -/
structure PayloadRef where
  kind : String
  value : String
deriving DecidableEq, Repr

/-- The dataclass `EvidenceObject` of `src/core/evidence.py` (its fields;
the `__post_init__` validation is the fallible constructor
`mkEvidenceObject` below). -/
structure EvidenceObject where
  evidence_id : String
  evidence_type : EvidenceType
  source : EvidenceSource
  status : EvidenceStatus
  payload_ref : PayloadRef
  status_reason : Option IndeterminateReason
  notes : Option String
deriving DecidableEq, Repr

/-- The dataclass `ScientificReport` of `src/core/report.py` (fields only;
its `__post_init__` uniqueness checks appear as hypotheses where a claim
needs them). -/
structure ScientificReport where
  claims : List Claim
  steps : List DerivationStep
  evidence : List EvidenceObject
  report_id : Option String
deriving DecidableEq, Repr

/-! ### GC-2 wire-boundary parser `parse_claim_label` (`src/core/validators.py`) -/

/-- The set `valid_labels` of `parse_claim_label`. -/
def valid_labels : List String :=
  ["DERIVED", "COMPUTED", "CITED", "SPECULATIVE"]

/-- The list `invisible_chars` checked by `parse_claim_label` (and by the
GC-4/GC-5 token parsers): ZWSP, NBSP, BOM, word joiner, ZWNJ, ZWJ. -/
def invisible_chars : List Char :=
  ['\u200B', '\u00A0', '\uFEFF', '\u2060', '\u200C', '\u200D']

/-- Whether a string contains one of the six invisible code points; models
the `for invisible in invisible_chars: if invisible in wire` loop (each
iteration raises the same message, so only the disjunction is observable). -/
def containsInvisible (s : String) : Bool :=
  invisible_chars.any (fun c => s.data.contains c)

/-- `ClaimLabel[wire]` restricted to the four valid label strings; `none`
exactly when `wire` is not in `valid_labels`. -/
def claimLabelOfString (w : String) : Option ClaimLabel :=
  if w = "DERIVED" then some ClaimLabel.DERIVED
  else if w = "COMPUTED" then some ClaimLabel.COMPUTED
  else if w = "CITED" then some ClaimLabel.CITED
  else if w = "SPECULATIVE" then some ClaimLabel.SPECULATIVE
  else none

/-- Python `wire.upper()` as used on the case-variant branch.  Modelled with
ASCII case mapping: the branch is reached only after the non-ASCII inputs
relevant to the claims below have been rejected, and no claim consumes it. -/
def pyUpper (s : String) : String :=
  String.mk (s.data.map Char.toUpper)

/-- The invisible-character rejection message of `parse_claim_label`. -/
def invisibleLabelMsg (w : String) : String :=
  "Invalid ClaimLabel: " ++ (pyRepr w ++ " contains invisible unicode character (GC-2)")

/-- The non-ASCII rejection message of `parse_claim_label`. -/
def nonAsciiLabelMsg (w : String) : String :=
  "Invalid ClaimLabel: " ++ (pyRepr w ++ " contains non-ASCII characters (GC-2)")

/-- String branch of `parse_claim_label`: empty check, exact-match fast path,
then the ordered rejection path (invisibles BEFORE whitespace, whitespace
before case, case before non-ASCII, then the generic message). -/
def parseClaimLabelStr (w : String) : Except PyError ClaimLabel :=
  if w = "" then .error (.valueError "Invalid ClaimLabel: empty string (GC-2)")
  else
    match claimLabelOfString w with
    | some l =>
        if pyIsAscii w then .ok l
        else .error (.valueError (nonAsciiLabelMsg w))
    | none =>
        if containsInvisible w then
          .error (.valueError (invisibleLabelMsg w))
        else if pyStrip w ∈ valid_labels then
          .error (.valueError ("Invalid ClaimLabel: " ++ (pyRepr w ++ " has invalid whitespace (GC-2)")))
        else if pyUpper w ∈ valid_labels then
          .error (.valueError ("Invalid ClaimLabel: " ++ (pyRepr w ++ (" must be uppercase (expected " ++ (pyUpper w ++ ") (GC-2)")))))
        else if !pyIsAscii w then
          .error (.valueError (nonAsciiLabelMsg w))
        else
          .error (.valueError ("Invalid ClaimLabel: " ++ (pyRepr w ++ " (must be one of: DERIVED, COMPUTED, CITED, SPECULATIVE) (GC-2)")))

/-- `parse_claim_label` of `src/core/validators.py`: `None` is rejected first
with a `ValueError`; every other non-string type with a `TypeError`; strings
go through `parseClaimLabelStr`. -/
def parse_claim_label : Wire → Except PyError ClaimLabel
  | .none => .error (.valueError "Invalid ClaimLabel: None (GC-2)")
  | .bool b => .error (.typeError ("Invalid ClaimLabel: " ++ (Wire.pyReprW (.bool b) ++ " (expected string, got bool) (GC-2)")))
  | .int n => .error (.typeError ("Invalid ClaimLabel: " ++ (Wire.pyReprW (.int n) ++ " (expected string, got number) (GC-2)")))
  | .float => .error (.typeError ("Invalid ClaimLabel: " ++ (Wire.pyReprW .float ++ " (expected string, got number) (GC-2)")))
  | .list xs => .error (.typeError ("Invalid ClaimLabel: " ++ (Wire.pyReprW (.list xs) ++ " (expected string, got list) (GC-2)")))
  | .dict ks => .error (.typeError ("Invalid ClaimLabel: " ++ (Wire.pyReprW (.dict ks) ++ " (expected string, got dict) (GC-2)")))
  | .str s => parseClaimLabelStr s

/-! ### GC-5 wire-boundary parser `parse_evidence_id` (`src/core/gc5_wire_parsers.py`) -/

/-- Python `" " in value or "\t" in value or "\n" in value or "\r" in value`
of `_check_internal_whitespace`. -/
def hasInternalWsChar (s : String) : Bool :=
  s.data.contains ' ' || s.data.contains '\t' || s.data.contains '\n' || s.data.contains '\r'

/-- String branch of GC-5 `parse_evidence_id`: empty, invisibles (first),
whitespace-only, leading/trailing whitespace, non-ASCII, internal
whitespace; returns the exact value, never trimmed. -/
def parseEvidenceIdStr (w : String) : Except PyError String :=
  if w = "" then .error (.valueError "Invalid evidence_id: empty string (GC-5)")
  else if containsInvisible w then
    .error (.valueError ("Invalid evidence_id: " ++ (pyRepr w ++ " contains invisible unicode character (GC-5)")))
  else if pyStrip w = "" then
    .error (.valueError ("Invalid evidence_id: " ++ (pyRepr w ++ " is whitespace-only (GC-5)")))
  else if w ≠ pyStrip w then
    .error (.valueError ("Invalid evidence_id: " ++ (pyRepr w ++ " has leading/trailing whitespace (GC-5: whitespace variants rejected at wire boundary)")))
  else if !pyIsAscii w then
    .error (.valueError ("Invalid evidence_id: " ++ (pyRepr w ++ " contains non-ASCII characters (GC-5)")))
  else if hasInternalWsChar w then
    .error (.valueError ("Invalid evidence_id: " ++ (pyRepr w ++ " contains internal whitespace (GC-5)")))
  else .ok w

/-- `parse_evidence_id` of `src/core/gc5_wire_parsers.py`: `None` is rejected
first with a `ValueError`; every other non-string type with a `TypeError`
naming the runtime type; strings go through `parseEvidenceIdStr`. -/
def parse_evidence_id : Wire → Except PyError String
  | .none => .error (.valueError "Invalid evidence_id: None (GC-5)")
  | .str s => parseEvidenceIdStr s
  | w => .error (.typeError ("Invalid evidence_id: " ++ (Wire.pyReprW w ++ (" (expected string, got " ++ (Wire.typeName w ++ ") (GC-5)")))))

/-! ### GC-5 `EvidenceObject.__post_init__` as a fallible constructor (`src/core/evidence.py`) -/

/-- The `alignment` table of `EvidenceObject.__post_init__`:
Derivation→step_id, Computation→tool_run_id, Citation→citation_id. -/
def alignmentKind : EvidenceType → String
  | .DERIVATION => "step_id"
  | .COMPUTATION => "tool_run_id"
  | .CITATION => "citation_id"

/-- Message of the leading/trailing-whitespace rejection on `evidence_id`. -/
def eidWhitespaceMsg (eid : String) : String :=
  "EvidenceObject: evidence_id " ++ (pyRepr eid ++ " has leading/trailing whitespace (GC-5: whitespace variants rejected)")

/-- Message of the `EVIDENCE_SOURCE_KIND_MISMATCH` rejection: names the
expected kind (from the alignment table) and the actual `source.kind`. -/
def kindMismatchMsg (ty : EvidenceType) (actual : String) : String :=
  "EvidenceObject: EVIDENCE_SOURCE_KIND_MISMATCH - evidence_type=" ++
    (ty.value ++ (" requires source.kind=" ++ (alignmentKind ty ++ (", got " ++ (actual ++ " (GC-5)")))))

/-- Message of the `INDETERMINATE_MISSING_REASON` rejection. -/
def indetMissingMsg : String :=
  "EvidenceObject: INDETERMINATE_MISSING_REASON - status=indeterminate requires status_reason (GC-5)"

/-- Message of the status_reason-present-on-non-indeterminate rejection. -/
def reasonPresentMsg (st : EvidenceStatus) : String :=
  "EvidenceObject: status_reason present when status=" ++ (st.value ++ " (only allowed for indeterminate) (GC-5)")

/-- The notes rule's guard: `notes is not None` and empty after trim. -/
def notesEmptyAfterTrim : Option String → Bool
  | some n => decide (pyStrip n = "")
  | none => false

/-- `EvidenceObject.__post_init__` of `src/core/evidence.py` as a fallible
constructor over typed fields (the `isinstance` checks hold by typing): the
`evidence_id` token checks, the `evidence_type ↔ source.kind` alignment, the
indeterminate-reason rule, the no-stale-reason rule, and the notes rule, in
the source's order; the first failing check raises. -/
def mkEvidenceObject (eid : String) (ty : EvidenceType) (src : EvidenceSource)
    (st : EvidenceStatus) (pref : PayloadRef) (sreason : Option IndeterminateReason)
    (notes : Option String) : Except PyError EvidenceObject :=
  if eid = "" ∨ pyStrip eid = "" then
    .error (.valueError "EvidenceObject: evidence_id must be non-empty (GC-5)")
  else if eid ≠ pyStrip eid then
    .error (.valueError (eidWhitespaceMsg eid))
  else if src.kind ≠ alignmentKind ty then
    .error (.valueError (kindMismatchMsg ty src.kind))
  else if st = EvidenceStatus.INDETERMINATE ∧ sreason = none then
    .error (.valueError indetMissingMsg)
  else if st ≠ EvidenceStatus.INDETERMINATE ∧ sreason ≠ none then
    .error (.valueError (reasonPresentMsg st))
  else if notesEmptyAfterTrim notes then
    .error (.valueError "EvidenceObject: NOTES_EMPTY - notes present but empty after trim (GC-5)")
  else .ok ⟨eid, ty, src, st, pref, sreason, notes⟩

/-! ### GC-3 structural validators (`src/core/structure_validators.py`) -/

/-- The dataclass `ValidationError` of `src/core/structure_validators.py`. -/
structure ValidationError where
  category : String
  message : String
  step_id : Option String
  claim_id : Option String
deriving DecidableEq, Repr

namespace StructureValidator

/-- `StructureValidator._validate_claim_references`: for every step, every
listed claim id must exist in the claim set (V1, `DANGLING_CLAIM_ID`). -/
def _validate_claim_references (report : ScientificReport) : List ValidationError :=
  report.steps.flatMap (fun step =>
    step.claim_ids.filterMap (fun claim_id =>
      if claim_id ∈ report.claims.map Claim.claim_id then none
      else some ⟨"DANGLING_CLAIM_ID",
                 "Step references non-existent claim_id: " ++ claim_id,
                 some step.step_id, some claim_id⟩))

/-- `StructureValidator._validate_no_orphans`: every claim must be referenced
by some step (V2, `ORPHAN_CLAIM`).  The Python set of referenced claim ids is
modelled by the concatenation of all steps' claim lists: only membership in
it is ever consumed. -/
def _validate_no_orphans (report : ScientificReport) : List ValidationError :=
  report.claims.filterMap (fun claim =>
    if claim.claim_id ∈ report.steps.flatMap DerivationStep.claim_ids then none
    else some ⟨"ORPHAN_CLAIM",
               "Claim is not referenced by any step: " ++ claim.claim_id,
               none, some claim.claim_id⟩)

/-- The `(claim_id, step_id)` pairs in the order
`_validate_unique_ownership` appends them into its ownership dict. -/
def ownershipPairs (steps : List DerivationStep) : List (String × String) :=
  steps.flatMap (fun step => step.claim_ids.map (fun claim_id => (claim_id, step.step_id)))

/-- Append a key to a Python-dict key list unless it is already present:
Python dicts keep keys in first-insertion order. -/
def insertKey (ks : List String) (k : String) : List String :=
  if k ∈ ks then ks else ks ++ [k]

/-- The key order of a Python dict built by appending the given pairs. -/
def dictKeys (ps : List (String × String)) : List String :=
  ps.foldl (fun ks p => insertKey ks p.1) []

/-- The value list `claim_ownership[claim_id]`: owning step ids in append
order. -/
def ownersOf (steps : List DerivationStep) (claim_id : String) : List String :=
  (ownershipPairs steps).filterMap (fun p => if p.1 = claim_id then some p.2 else none)

/-- `StructureValidator._validate_unique_ownership`: a claim id may not be
owned by several steps (V3, `DUPLICATE_CLAIM_OWNER`); the error message
carries the full owner list. -/
def _validate_unique_ownership (report : ScientificReport) : List ValidationError :=
  (dictKeys (ownershipPairs report.steps)).filterMap (fun claim_id =>
    if (ownersOf report.steps claim_id).length > 1 then
      some ⟨"DUPLICATE_CLAIM_OWNER",
            "Claim is owned by multiple steps: " ++ pyListRepr (ownersOf report.steps claim_id),
            none, some claim_id⟩
    else none)

/-- `StructureValidator._validate_step_dependencies`: every `depends_on`
entry must resolve to an existing step id (`DANGLING_STEP_DEP`). -/
def _validate_step_dependencies (report : ScientificReport) : List ValidationError :=
  report.steps.flatMap (fun step =>
    step.depends_on.filterMap (fun dep_step_id =>
      if dep_step_id ∈ report.steps.map DerivationStep.step_id then none
      else some ⟨"DANGLING_STEP_DEP",
                 "Step depends on non-existent step_id: " ++ dep_step_id,
                 some step.step_id, none⟩))

/-- The one error list `validate_report` extends with each check's
result. -/
def allErrors (report : ScientificReport) : List ValidationError :=
  _validate_claim_references report ++
  (_validate_no_orphans report ++
   (_validate_unique_ownership report ++
    _validate_step_dependencies report))

/-- `StructureValidator.validate_report`: runs the four whole-document
checks, extends one error list with each result, and returns
`(errors == [], errors)`. -/
def validate_report (report : ScientificReport) : Bool × List ValidationError :=
  (decide ((allErrors report).length = 0), allErrors report)

end StructureValidator

/-! ### GC-4 evidence policy validator (`src/core/evidence_validators.py`) -/

/-- Message of the `NON_SPEC_MISSING_EVIDENCE` rule. -/
def nonSpecMissingMsg (c : Claim) : String :=
  "NON_SPEC_MISSING_EVIDENCE: Claim " ++
    (c.claim_id ++ (" (label=" ++ (c.claim_label.value ++ ") must have >=1 evidence_id (GC-4)")))

/-- Message of the `EVIDENCE_ID_EMPTY` rule at list position `idx`. -/
def emptyIdMsg (claim_id : String) (idx : Nat) : String :=
  "EVIDENCE_ID_EMPTY: Claim " ++
    (claim_id ++ (" evidence_ids[" ++ (toString idx ++ "] is empty or whitespace-only (GC-4)")))

/-- Message of the `EVIDENCE_ID_DUP_IN_CLAIM` rule.  Python renders
`set(duplicates)`; the set's iteration order is modelled as first-occurrence
order (no claim consumes this message's interpolated part). -/
def dupInClaimMsg (c : Claim) : String :=
  "EVIDENCE_ID_DUP_IN_CLAIM: Claim " ++
    (c.claim_id ++ (" has duplicate evidence_ids: " ++
      (pyListRepr ((c.evidence_ids.filter (fun eid => c.evidence_ids.count eid > 1)).foldl StructureValidator.insertKey []) ++ " (GC-4)")))

/-- Message of the `DANGLING_EVIDENCE_ID` rule for the entry `eid`. -/
def danglingMsg (claim_id : String) (eid : String) : String :=
  "DANGLING_EVIDENCE_ID: Claim " ++
    (claim_id ++ (" references non-existent evidence_id: " ++ (eid ++ " (GC-4)")))

/-- Python truthiness-and-strip guard `eid and eid.strip()`: true when the
id is non-empty and not whitespace-only. -/
def eidTruthy (eid : String) : Bool :=
  eid ≠ "" && pyStrip eid ≠ ""

namespace EvidenceValidator

/-- The `EVIDENCE_ID_EMPTY` loop of `validate_claim_evidence`: one error per
enumerated entry whose value is empty or whitespace-only. -/
def emptyIdErrors (c : Claim) : List String :=
  c.evidence_ids.enum.filterMap (fun p =>
    if eidTruthy p.2 then none else some (emptyIdMsg c.claim_id p.1))

/-- The `EVIDENCE_ID_DUP_IN_CLAIM` check of `validate_claim_evidence`
(`len(ids) != len(set(ids))`). -/
def dupInClaimErrors (c : Claim) : List String :=
  if c.evidence_ids.length ≠ (c.evidence_ids.foldl StructureValidator.insertKey []).length then
    [dupInClaimMsg c]
  else []

/-- The `DANGLING_EVIDENCE_ID` loop of `validate_claim_evidence`: only ids
that pass the truthiness-and-strip guard are looked up in the report's
evidence collection. -/
def danglingErrors (c : Claim) (report : ScientificReport) : List String :=
  c.evidence_ids.filterMap (fun eid =>
    if eidTruthy eid && eid ∉ report.evidence.map EvidenceObject.evidence_id then
      some (danglingMsg c.claim_id eid)
    else none)

/-- `EvidenceValidator.validate_claim_evidence` of
`src/core/evidence_validators.py`.  For a SPECULATIVE claim the source reads
`claim.verify_falsify`; the `Claim` dataclass of `src/core/claim.py` defines
no such field, so the attribute lookup raises `AttributeError` before any
error list can be returned — that branch is therefore an exception.  For a
non-SPECULATIVE claim the function returns `(errors == [], errors)` with the
four rule blocks appended in source order; `claimErrors` is that error
list. -/
def claimErrors (claim : Claim) (report : ScientificReport) : List String :=
  (if claim.claim_label ≠ ClaimLabel.SPECULATIVE ∧ claim.evidence_ids.length = 0 then
    [nonSpecMissingMsg claim]
   else []) ++
    (emptyIdErrors claim ++ (dupInClaimErrors claim ++ danglingErrors claim report))

def validate_claim_evidence (claim : Claim) (report : ScientificReport) :
    Except PyError (Bool × List String) :=
  if claim.claim_label = ClaimLabel.SPECULATIVE then
    .error (.attributeError "\x27Claim\x27 object has no attribute \x27verify_falsify\x27")
  else
    .ok (decide ((claimErrors claim report).length = 0), claimErrors claim report)

/-- The per-claim loop of `EvidenceValidator.validate_report_evidence`: the
first claim whose validation raises aborts the loop. -/
def collectClaimErrors (report : ScientificReport) :
    List Claim → List String → Except PyError (List String)
  | [], acc => .ok acc
  | c :: cs, acc =>
      match validate_claim_evidence c report with
      | .error e => .error e
      | .ok out => collectClaimErrors report cs (acc ++ out.2)

/-- `EvidenceValidator.validate_report_evidence`. -/
def validate_report_evidence (report : ScientificReport) :
    Except PyError (Bool × List String) :=
  match collectClaimErrors report report.claims [] with
  | .error e => .error e
  | .ok all_errors => .ok (decide (all_errors.length = 0), all_errors)

end EvidenceValidator

/-! ### GC-6/GC-13 integrity aggregator (`src/core/integrity.py`) -/

/-- The local `non_speculative_claims` computed by
`compute_unsupported_claim_rate` and `finalization_check`. -/
def non_speculative_claims (claims : List Claim) : List Claim :=
  claims.filter (fun c => decide (c.claim_label ≠ ClaimLabel.SPECULATIVE))

/-- The local `unsupported_claims` of `compute_unsupported_claim_rate` and
`finalization_check`. -/
def unsupported_claims (claims : List Claim) : List Claim :=
  (non_speculative_claims claims).filter (fun c => !c.is_supported)

/-- `compute_unsupported_claim_rate`: unsupported non-SPECULATIVE claims over
all non-SPECULATIVE claims, 0 when there are none.  Python's float division
of the two list lengths is modelled as exact rational division. -/
def compute_unsupported_claim_rate (claims : List Claim) : ℚ :=
  if (non_speculative_claims claims).length = 0 then 0
  else ((unsupported_claims claims).length : ℚ) / ((non_speculative_claims claims).length : ℚ)

/-- Python `f"{rate:.2%}"`: the rate as a percentage with two decimals.
Modelled by rounding the exact rational (Python rounds the IEEE double; the
claims consume this string only as an opaque rendering of the rate). -/
def pyFormatPercent2 (q : ℚ) : String :=
  let n := (q * 10000 + 1/2).floor
  let frac := (n % 100).toNat
  toString (n / 100) ++ ("." ++ ((if frac < 10 then "0" ++ toString frac else toString frac) ++ "%"))

/-- Python `claim.statement[:80]`: the first 80 code points. -/
def pyTake80 (s : String) : String :=
  String.mk (s.data.take 80)

/-- The remediation checklist `finalization_check` returns for an empty
claim list. -/
def noClaimsChecklist : List String :=
  ["No claims extracted - cannot finalize",
   "Checklist:",
   "  - Provide derivation steps with explicit claims",
   "  - OR provide equations/identities to verify",
   "  - OR provide source attributions/citations",
   "  - OR explicitly state \x27no derivation possible yet\x27 with explanation"]

/-- The first reason line of `finalization_check` when unsupported
non-SPECULATIVE claims exist. -/
def foundLine (k : Nat) : String :=
  "Found " ++ (toString k ++ " unsupported non-SPECULATIVE claim(s)")

/-- The rate reason line of `finalization_check`. -/
def rateLine (k n : Nat) (rate : ℚ) : String :=
  "Unsupported claim rate: " ++
    (toString k ++ ("/" ++ (toString n ++ (" = " ++ pyFormatPercent2 rate))))

/-- One truncated offending-claim line of `finalization_check`. -/
def offenderLine (c : Claim) : String :=
  "  - [" ++ (c.claim_label.value ++ ("] " ++ (pyTake80 c.statement ++ "...")))

/-- The overflow line of `finalization_check` when more than 5 claims are
unsupported. -/
def moreLine (k : Nat) : String :=
  "  ... and " ++ (toString (k - 5) ++ " more")

/-- `finalization_check` of `src/core/integrity.py` (GC-13): fails closed on
zero claims with the remediation checklist; blocks with count, rate and a
first-5 listing when unsupported non-SPECULATIVE claims exist; otherwise
finalizes with no reasons. -/
def finalization_check (claims : List Claim) : Bool × List String :=
  if claims.length = 0 then (false, noClaimsChecklist)
  else if (non_speculative_claims claims).length = 0 then (true, [])
  else if 0 < (unsupported_claims claims).length then
    (false,
      foundLine (unsupported_claims claims).length ::
      (rateLine (unsupported_claims claims).length (non_speculative_claims claims).length
          (compute_unsupported_claim_rate claims) ::
       (((unsupported_claims claims).take 5).map offenderLine ++
        (if 5 < (unsupported_claims claims).length
         then [moreLine (unsupported_claims claims).length] else []))))
  else (true, [])

/-! ### String helper lemmas -/

/-- Two strings with the same code-point list are equal. -/
theorem str_data_inj {s t : String} (h : s.data = t.data) : s = t := by
  cases s; cases t; exact congrArg String.mk h

/-- Left cancellation for string append. -/
theorem str_app_cancel_left (s a b : String) (h : s ++ a = s ++ b) : a = b := by
  have hd := congrArg String.data h
  rw [String.data_append, String.data_append] at hd
  exact str_data_inj (List.append_cancel_left hd)

/-- Right cancellation for string append. -/
theorem str_app_cancel_right (a b s : String) (h : a ++ s = b ++ s) : a = b := by
  have hd := congrArg String.data h
  rw [String.data_append, String.data_append] at hd
  exact str_data_inj (List.append_cancel_right hd)

/-- A position inside the left part of an append reads from the left part. -/
theorem str_data_getElem_append (s t : String) (n : Nat) (h : n < s.data.length) :
    (s ++ t).data[n]? = s.data[n]? := by
  rw [String.data_append]; exact List.getElem?_append_left h

/-- Two strings differing at some position are distinct. -/
theorem str_ne_of_nth (n : Nat) (s t : String) (a b : Char)
    (hs : s.data[n]? = some a) (ht : t.data[n]? = some b) (hab : a ≠ b) : s ≠ t := by
  intro h
  rw [h, ht] at hs
  exact hab (Option.some.inj hs).symm

/-! ### C1 — SPEC_MISSING_VERIFY_FALSIFY and the missing `verify_falsify` field -/

/-- A SPECULATIVE claim exactly as `src/core/claim.py` can construct it:
the dataclass offers no way to attach a `verify_falsify` value. -/
def specClaimC1 : Claim :=
  ⟨"claim-001", "This might work", ClaimLabel.SPECULATIVE, none, [], none⟩

/-- A report holding `specClaimC1`, mirroring the fixture of
`test_spec_requires_verify_falsify` in `src/tests/test_gc4_evidence.py`. -/
def reportC1 : ScientificReport :=
  ⟨[specClaimC1], [⟨"step-001", ["claim-001"], StepStatus.UNCHECKED, [], none⟩], [], none⟩

/-- C1: the claim says the evidence policy validator returns an error list
with a `SPEC_MISSING_VERIFY_FALSIFY` entry for a SPECULATIVE claim without a
falsifiability statement, and never raises.  On the code a SPECULATIVE claim
makes `validate_claim_evidence` (and hence `validate_report_evidence`) read
`claim.verify_falsify`, an attribute the `Claim` dataclass of
`src/core/claim.py` does not define, so both raise `AttributeError` instead
of returning any list — the code contradicts its own tests, which construct
`Claim(..., verify_falsify=...)` and assert on the returned error list. -/
theorem validate_claim_evidence_speculative_raises :
    EvidenceValidator.validate_claim_evidence specClaimC1 reportC1 =
      .error (.attributeError "\x27Claim\x27 object has no attribute \x27verify_falsify\x27") ∧
    EvidenceValidator.validate_report_evidence reportC1 =
      .error (.attributeError "\x27Claim\x27 object has no attribute \x27verify_falsify\x27") :=
  ⟨rfl, rfl⟩

/-! ### C2 — non-string inputs at the token parsers -/

/-- The non-string, non-`None` wire types: boolean, number, list, map. -/
def wireIsNonStringNonNone : Wire → Bool
  | .bool _ => true
  | .int _ => true
  | .float => true
  | .list _ => true
  | .dict _ => true
  | .none => false
  | .str _ => false

/-- Whether a parse outcome is a `TypeError` rejection. -/
def isTypeErrorResult {α : Type} : Except PyError α → Bool
  | .error (.typeError _) => true
  | _ => false

/-- C2 (counterexample to the claim as stated): `None` is rejected by
`parse_claim_label` and by `parse_evidence_id` with the value-error
category, not the type-mismatch category the claim asserts. -/
theorem none_rejected_with_valueError :
    parse_claim_label Wire.none = .error (.valueError "Invalid ClaimLabel: None (GC-2)") ∧
    parse_evidence_id Wire.none = .error (.valueError "Invalid evidence_id: None (GC-5)") ∧
    isTypeErrorResult (parse_claim_label Wire.none) = false ∧
    isTypeErrorResult (parse_evidence_id Wire.none) = false :=
  ⟨rfl, rfl, rfl, rfl⟩

/-- C2 (amended): every non-string input other than `None` (boolean, number,
list, map) is rejected by both token parsers with a `TypeError`, distinct
from the `ValueError` category used for invalid string values; `None` is
rejected with a `ValueError`. -/
theorem nonstring_rejection_taxonomy :
    (∀ w : Wire, wireIsNonStringNonNone w = true →
       (∃ m, parse_claim_label w = .error (.typeError m)) ∧
       (∃ m, parse_evidence_id w = .error (.typeError m))) ∧
    parse_claim_label Wire.none = .error (.valueError "Invalid ClaimLabel: None (GC-2)") ∧
    parse_evidence_id Wire.none = .error (.valueError "Invalid evidence_id: None (GC-5)") := by
  refine ⟨?_, rfl, rfl⟩
  intro w hw
  cases w <;> simp [wireIsNonStringNonNone] at hw <;>
    exact ⟨⟨_, rfl⟩, ⟨_, rfl⟩⟩

/-- Witness for `nonstring_rejection_taxonomy` at the boolean input `True`. -/
theorem nonstring_rejection_taxonomy_witness :
    wireIsNonStringNonNone (Wire.bool true) = true ∧
    ((∃ m, parse_claim_label (Wire.bool true) = .error (.typeError m)) ∧
     (∃ m, parse_evidence_id (Wire.bool true) = .error (.typeError m))) :=
  ⟨rfl, nonstring_rejection_taxonomy.1 (Wire.bool true) rfl⟩

/-! ### C6 — invisible code points are rejected before anything else -/

/-- Membership in `valid_labels` is exactly what the fast path accepts. -/
theorem claimLabelOfString_eq_none {w : String} (h : w ∉ valid_labels) :
    claimLabelOfString w = none := by
  have h4 : ¬(w = "DERIVED" ∨ w = "COMPUTED" ∨ w = "CITED" ∨ w = "SPECULATIVE") := by
    simpa [valid_labels] using h
  push_neg at h4
  simp [claimLabelOfString, h4.1, h4.2.1, h4.2.2.1, h4.2.2.2]

/-- C6: any input string that contains one of the six invisible code points
and is not one of the four exact canonical labels is rejected by
`parse_claim_label` with the invisible-character error category — the result
does not depend on the whitespace or case checks, which run later. -/
theorem invisible_label_rejected (w : String)
    (hinv : containsInvisible w = true) (hvalid : w ∉ valid_labels) :
    parse_claim_label (Wire.str w) = .error (.valueError (invisibleLabelMsg w)) := by
  have hne : w ≠ "" := by
    rintro rfl
    exact absurd hinv (by decide)
  show parseClaimLabelStr w = _
  rw [parseClaimLabelStr, if_neg hne, claimLabelOfString_eq_none hvalid, if_pos hinv]

/-- Witness for `invisible_label_rejected`: the label `"DERIVED\u200B"`
(trailing zero-width space) is rejected with the invisible-character
category, hence never treated as `DERIVED`. -/
theorem invisible_label_rejected_witness :
    containsInvisible "DERIVED\u200B" = true ∧ "DERIVED\u200B" ∉ valid_labels ∧
    parse_claim_label (Wire.str "DERIVED\u200B") =
      .error (.valueError (invisibleLabelMsg "DERIVED\u200B")) :=
  ⟨by decide, by decide, invisible_label_rejected _ (by decide) (by decide)⟩

/-! ### C7/C8 — integrity aggregator -/

/-- The non-SPECULATIVE claims whose `evidence_ids` list is empty, stated
the way the spec's formula counts them. -/
def unsupportedNonSpec (claims : List Claim) : List Claim :=
  claims.filter (fun c => decide (c.claim_label ≠ ClaimLabel.SPECULATIVE) && c.evidence_ids.isEmpty)

/-- The spec's formula for the unsupported-claim rate:
`|{c : label ≠ Speculative ∧ evidence_ids empty}| / |{c : label ≠ Speculative}|`,
defined as 0 when the denominator is 0. -/
def unsupported_rate_formula (claims : List Claim) : ℚ :=
  if (non_speculative_claims claims).length = 0 then 0
  else ((unsupportedNonSpec claims).length : ℚ) / ((non_speculative_claims claims).length : ℚ)

/-- The code's local `unsupported_claims` list is the spec's "non-SPECULATIVE
claims with an empty evidence list": for a non-SPECULATIVE claim
`is_supported` is exactly evidence non-emptiness. -/
theorem filter_unsupported_eq (claims : List Claim) :
    unsupported_claims claims = unsupportedNonSpec claims := by
  rw [unsupported_claims, non_speculative_claims, unsupportedNonSpec, List.filter_filter]
  apply List.filter_congr
  intro c _
  by_cases hl : c.claim_label = ClaimLabel.SPECULATIVE
  · simp [hl, Claim.is_supported]
  · cases h : c.evidence_ids <;> simp [hl, Claim.is_supported, h]

/-- C7: the unsupported-claim rate is within [0,1], is 0 when no
non-SPECULATIVE claim exists, and otherwise is the number of non-SPECULATIVE
claims with an empty evidence list over the number of non-SPECULATIVE
claims (the spec's formula). -/
theorem unsupported_rate_bounds_and_formula (claims : List Claim) :
    0 ≤ compute_unsupported_claim_rate claims ∧
    compute_unsupported_claim_rate claims ≤ 1 ∧
    ((non_speculative_claims claims).length = 0 → compute_unsupported_claim_rate claims = 0) ∧
    compute_unsupported_claim_rate claims = unsupported_rate_formula claims := by
  unfold compute_unsupported_claim_rate unsupported_rate_formula
  rw [filter_unsupported_eq]
  by_cases h : (non_speculative_claims claims).length = 0
  · rw [if_pos h]
    exact ⟨le_refl 0, by norm_num, fun _ => rfl, rfl⟩
  · rw [if_neg h]
    have hle : (unsupportedNonSpec claims).length ≤ (non_speculative_claims claims).length := by
      rw [← filter_unsupported_eq, unsupported_claims]
      exact List.length_filter_le _ _
    have hpos : (0 : ℚ) < ((non_speculative_claims claims).length : ℚ) := by
      exact_mod_cast Nat.pos_of_ne_zero h
    exact ⟨div_nonneg (by positivity) (le_of_lt hpos),
           (div_le_one hpos).mpr (by exact_mod_cast hle),
           fun h0 => absurd h0 h, rfl⟩

/-- Witness for `unsupported_rate_bounds_and_formula`: a document whose only
claim is SPECULATIVE has rate 0. -/
theorem unsupported_rate_witness :
    compute_unsupported_claim_rate
      [⟨"c-spec", "maybe", ClaimLabel.SPECULATIVE, none, [], none⟩] = 0 :=
  (unsupported_rate_bounds_and_formula
      [⟨"c-spec", "maybe", ClaimLabel.SPECULATIVE, none, [], none⟩]).2.2.1 (by decide)

/-- C8: `finalization_check` fails closed — zero claims block finalization
with a non-empty remediation checklist; any non-SPECULATIVE claim with no
evidence blocks it with reasons carrying the count, the rate, the first
(at most 5) offending claims and the overflow marker; a non-empty document
that is all-SPECULATIVE or all-supported finalizes with no reasons. -/
theorem finalization_check_fails_closed :
    ((finalization_check []).1 = false ∧ (finalization_check []).2 ≠ []) ∧
    (∀ claims : List Claim,
      (∃ c ∈ claims, c.claim_label ≠ ClaimLabel.SPECULATIVE ∧ c.evidence_ids = []) →
      (finalization_check claims).1 = false ∧
      (finalization_check claims).2 =
        foundLine (unsupportedNonSpec claims).length ::
        (rateLine (unsupportedNonSpec claims).length (non_speculative_claims claims).length
            (compute_unsupported_claim_rate claims) ::
         (((unsupportedNonSpec claims).take 5).map offenderLine ++
          (if 5 < (unsupportedNonSpec claims).length
           then [moreLine (unsupportedNonSpec claims).length] else [])))) ∧
    (∀ claims : List Claim, claims ≠ [] →
      (∀ c ∈ claims, c.claim_label = ClaimLabel.SPECULATIVE ∨ c.evidence_ids ≠ []) →
      finalization_check claims = (true, [])) := by
  refine ⟨⟨rfl, by decide⟩, ?_, ?_⟩
  · rintro claims ⟨c, hc, hlab, hev⟩
    have hne : claims.length ≠ 0 := fun h0 => List.ne_nil_of_mem hc (List.length_eq_zero.mp h0)
    have hcns : c ∈ non_speculative_claims claims :=
      List.mem_filter.mpr ⟨hc, by simp [hlab]⟩
    have hns : (non_speculative_claims claims).length ≠ 0 :=
      fun h0 => List.ne_nil_of_mem hcns (List.length_eq_zero.mp h0)
    have hcu : c ∈ unsupportedNonSpec claims :=
      List.mem_filter.mpr ⟨hc, by simp [hlab, hev]⟩
    have hu : 0 < (unsupportedNonSpec claims).length :=
      List.length_pos.mpr (List.ne_nil_of_mem hcu)
    unfold finalization_check
    rw [filter_unsupported_eq, if_neg hne, if_neg hns, if_pos hu]
    exact ⟨rfl, rfl⟩
  · intro claims hne hall
    have hlen : claims.length ≠ 0 := fun h0 => hne (List.length_eq_zero.mp h0)
    unfold finalization_check
    rw [filter_unsupported_eq, if_neg hlen]
    by_cases hns : (non_speculative_claims claims).length = 0
    · rw [if_pos hns]
    · rw [if_neg hns]
      have hempty : unsupportedNonSpec claims = [] := by
        rw [unsupportedNonSpec]
        refine List.filter_eq_nil_iff.mpr ?_
        intro a ha
        rcases hall a ha with h1 | h2
        · simp [h1]
        · cases h : a.evidence_ids with
          | nil => exact absurd h h2
          | cons x xs => simp [h]
      rw [hempty]
      rw [if_neg (by simp)]

/-- Witness for `finalization_check_fails_closed`: a single CITED claim with
no evidence blocks finalization; a single DERIVED claim with evidence
finalizes with no reasons. -/
theorem finalization_check_witness :
    (finalization_check [⟨"c-cited", "According to X", ClaimLabel.CITED, none, [], none⟩]).1 = false ∧
    finalization_check [⟨"c-der", "x = y", ClaimLabel.DERIVED, none, ["ev-1"], none⟩] = (true, []) :=
  ⟨(finalization_check_fails_closed.2.1
      [⟨"c-cited", "According to X", ClaimLabel.CITED, none, [], none⟩]
      ⟨⟨"c-cited", "According to X", ClaimLabel.CITED, none, [], none⟩, by decide, by decide, rfl⟩).1,
   finalization_check_fails_closed.2.2
      [⟨"c-der", "x = y", ClaimLabel.DERIVED, none, ["ev-1"], none⟩]
      (by decide) (by decide)⟩

/-! ### C9 — the structural validator collects all errors in one pass -/

/-- C9: the error list `validate_report` returns contains an error exactly
when one of the four independent checks produced it: nothing is
short-circuited, so a document violating several rules at once surfaces all
the corresponding errors in the single returned list. -/
theorem validate_report_collects_all (report : ScientificReport) (e : ValidationError) :
    e ∈ (StructureValidator.validate_report report).2 ↔
      (e ∈ StructureValidator._validate_claim_references report ∨
       e ∈ StructureValidator._validate_no_orphans report ∨
       e ∈ StructureValidator._validate_unique_ownership report ∨
       e ∈ StructureValidator._validate_step_dependencies report) := by
  simp [StructureValidator.validate_report, StructureValidator.allErrors, List.mem_append]

/-! ### C4/C5 — EvidenceObject schema invariants -/

/-- The `EVIDENCE_SOURCE_KIND_MISMATCH` message carries `E` (of the category
token) at position 16, whatever the interpolated values are. -/
theorem kindMismatchMsg_nth (t : EvidenceType) (k : String) :
    (kindMismatchMsg t k).data[16]? = some 'E' := by
  unfold kindMismatchMsg
  rw [str_data_getElem_append _ _ 16 (by decide)]
  decide

/-- The whitespace rejection on `evidence_id` has `e` at position 16. -/
theorem eidWhitespaceMsg_nth (eid : String) :
    (eidWhitespaceMsg eid).data[16]? = some 'e' := by
  unfold eidWhitespaceMsg
  rw [str_data_getElem_append _ _ 16 (by decide)]
  decide

/-- The stale-reason rejection has `s` at position 16. -/
theorem reasonPresentMsg_nth (st : EvidenceStatus) :
    (reasonPresentMsg st).data[16]? = some 's' := by
  unfold reasonPresentMsg
  rw [str_data_getElem_append _ _ 16 (by decide)]
  decide

/-- No message whose 16th code point is not `E` is a kind-mismatch
message. -/
theorem ne_kindMismatch_of_nth (m : String) (c : Char) (hm : m.data[16]? = some c)
    (hc : c ≠ 'E') (t : EvidenceType) (k : String) : m ≠ kindMismatchMsg t k :=
  str_ne_of_nth 16 m _ c 'E' hm (kindMismatchMsg_nth t k) hc

/-- C4 (amended): a successfully constructed `EvidenceObject` always
satisfies status = INDETERMINATE ⇔ status_reason present; an INDETERMINATE
construction without a reason fails — with the `INDETERMINATE_MISSING_REASON`
error whenever the earlier `evidence_id` token checks and the source-kind
alignment check pass — and a construction with a reason on a
non-INDETERMINATE status always fails, so no object violating the
biconditional is ever observable. -/
theorem evidence_indeterminate_reason_biconditional :
    (∀ eid ty src st pref sr notes obj,
       mkEvidenceObject eid ty src st pref sr notes = .ok obj →
       (obj.status = EvidenceStatus.INDETERMINATE ↔ obj.status_reason ≠ none)) ∧
    (∀ eid ty src pref notes, ¬(eid = "" ∨ pyStrip eid = "") → eid = pyStrip eid →
       src.kind = alignmentKind ty →
       mkEvidenceObject eid ty src EvidenceStatus.INDETERMINATE pref none notes =
         .error (.valueError indetMissingMsg)) ∧
    (∀ eid ty src st pref r notes, st ≠ EvidenceStatus.INDETERMINATE →
       ∃ e, mkEvidenceObject eid ty src st pref (some r) notes = .error e) := by
  refine ⟨?_, ?_, ?_⟩
  · intro eid ty src st pref sr notes obj hobj
    unfold mkEvidenceObject at hobj
    split_ifs at hobj with h1 h2 h3 h4 h5 h6
    obtain rfl : (⟨eid, ty, src, st, pref, sr, notes⟩ : EvidenceObject) = obj :=
      Except.ok.inj hobj
    constructor
    · intro hst hsr
      exact h4 ⟨hst, hsr⟩
    · intro hsr
      by_contra hst
      exact h5 ⟨hst, hsr⟩
  · intro eid ty src pref notes h1 h2 h3
    unfold mkEvidenceObject
    rw [if_neg h1, if_neg (not_not_intro h2), if_neg (not_not_intro h3),
        if_pos ⟨rfl, rfl⟩]
  · intro eid ty src st pref r notes hst
    unfold mkEvidenceObject
    split_ifs with h1 h2 h3 h4 h5 h6
    · exact ⟨_, rfl⟩
    · exact ⟨_, rfl⟩
    · exact ⟨_, rfl⟩
    · exact ⟨_, rfl⟩
    · exact ⟨_, rfl⟩
    · exact ⟨_, rfl⟩
    · exact absurd ⟨hst, by simp⟩ h5

/-- Witness for `evidence_indeterminate_reason_biconditional`: a valid token
with INDETERMINATE status and no reason is rejected with
`INDETERMINATE_MISSING_REASON`. -/
theorem evidence_indeterminate_reason_witness :
    mkEvidenceObject "e1" EvidenceType.DERIVATION ⟨"step_id", "s1"⟩
        EvidenceStatus.INDETERMINATE ⟨"log_id", "l1"⟩ none none =
      .error (.valueError indetMissingMsg) :=
  evidence_indeterminate_reason_biconditional.2.1 "e1" EvidenceType.DERIVATION
    ⟨"step_id", "s1"⟩ ⟨"log_id", "l1"⟩ none (by decide) (by decide) rfl

/-- C4 (counterexample to the claim as stated): with an empty `evidence_id`
and INDETERMINATE status without a reason, construction fails with the
evidence-id error, not with an `INDETERMINATE_MISSING_REASON` error: the
token checks preempt the reason check. -/
theorem evidence_indeterminate_preempted_counterexample :
    mkEvidenceObject "" EvidenceType.DERIVATION ⟨"step_id", "s1"⟩
        EvidenceStatus.INDETERMINATE ⟨"log_id", "l1"⟩ none none =
      .error (.valueError "EvidenceObject: evidence_id must be non-empty (GC-5)") ∧
    mkEvidenceObject "" EvidenceType.DERIVATION ⟨"step_id", "s1"⟩
        EvidenceStatus.INDETERMINATE ⟨"log_id", "l1"⟩ none none ≠
      .error (.valueError indetMissingMsg) := by
  constructor
  · rfl
  · intro h
    have hm := PyError.valueError.inj (Except.error.inj h)
    exact absurd hm (by decide)

/-- C5 (amended): when the `evidence_id` token checks pass and `source.kind`
differs from the kind the alignment table dictates for the evidence type,
construction fails with exactly the `EVIDENCE_SOURCE_KIND_MISMATCH` error,
whose message names the expected and the actual kind; when `source.kind`
matches the table, no kind-mismatch error is ever produced. -/
theorem evidence_source_kind_mismatch (eid : String) (ty : EvidenceType)
    (src : EvidenceSource) (st : EvidenceStatus) (pref : PayloadRef)
    (sr : Option IndeterminateReason) (notes : Option String) :
    (¬(eid = "" ∨ pyStrip eid = "") → eid = pyStrip eid →
       src.kind ≠ alignmentKind ty →
       mkEvidenceObject eid ty src st pref sr notes =
         .error (.valueError (kindMismatchMsg ty src.kind))) ∧
    (src.kind = alignmentKind ty →
       ∀ t k, mkEvidenceObject eid ty src st pref sr notes ≠
         .error (.valueError (kindMismatchMsg t k))) := by
  constructor
  · intro h1 h2 h3
    unfold mkEvidenceObject
    rw [if_neg h1, if_neg (not_not_intro h2), if_pos h3]
  · intro hk t k
    unfold mkEvidenceObject
    split_ifs with h1 h2 h3 h4 h5 h6
    · simp only [ne_eq, Except.error.injEq, PyError.valueError.injEq]
      exact ne_kindMismatch_of_nth _ 'e' (by decide) (by decide) t k
    · simp only [ne_eq, Except.error.injEq, PyError.valueError.injEq]
      exact ne_kindMismatch_of_nth _ 'e' (eidWhitespaceMsg_nth eid) (by decide) t k
    · exact absurd hk h3
    · simp only [ne_eq, Except.error.injEq, PyError.valueError.injEq]
      exact ne_kindMismatch_of_nth _ 'I' (by decide) (by decide) t k
    · simp only [ne_eq, Except.error.injEq, PyError.valueError.injEq]
      exact ne_kindMismatch_of_nth _ 's' (reasonPresentMsg_nth st) (by decide) t k
    · simp only [ne_eq, Except.error.injEq, PyError.valueError.injEq]
      exact ne_kindMismatch_of_nth _ 'N' (by decide) (by decide) t k
    · simp

/-- Witness for `evidence_source_kind_mismatch`: the spec's scenario
`{type: derivation, source.kind: tool_run_id}` yields exactly the mismatch
error naming expected `step_id` and actual `tool_run_id`. -/
theorem evidence_source_kind_mismatch_witness :
    mkEvidenceObject "e1" EvidenceType.DERIVATION ⟨"tool_run_id", "t1"⟩
        EvidenceStatus.PASS ⟨"log_id", "l1"⟩ none none =
      .error (.valueError (kindMismatchMsg EvidenceType.DERIVATION "tool_run_id")) :=
  (evidence_source_kind_mismatch "e1" EvidenceType.DERIVATION ⟨"tool_run_id", "t1"⟩
      EvidenceStatus.PASS ⟨"log_id", "l1"⟩ none none).1 (by decide) (by decide) (by decide)

/-- C5 (counterexample to the claim as stated): with an empty `evidence_id`
and a mismatched source kind, construction fails with the evidence-id error,
not with an `EVIDENCE_SOURCE_KIND_MISMATCH` error: the token checks preempt
the alignment check. -/
theorem evidence_kind_mismatch_preempted_counterexample :
    mkEvidenceObject "" EvidenceType.DERIVATION ⟨"tool_run_id", "t1"⟩
        EvidenceStatus.PASS ⟨"log_id", "l1"⟩ none none =
      .error (.valueError "EvidenceObject: evidence_id must be non-empty (GC-5)") ∧
    mkEvidenceObject "" EvidenceType.DERIVATION ⟨"tool_run_id", "t1"⟩
        EvidenceStatus.PASS ⟨"log_id", "l1"⟩ none none ≠
      .error (.valueError (kindMismatchMsg EvidenceType.DERIVATION "tool_run_id")) := by
  constructor
  · rfl
  · intro h
    have hm := PyError.valueError.inj (Except.error.inj h)
    exact absurd hm (by decide)

/-! ### C10 — EVIDENCE_ID_EMPTY versus DANGLING_EVIDENCE_ID -/

/-- `DANGLING_EVIDENCE_ID` messages for one claim determine the offending
id. -/
theorem danglingMsg_inj (cid e1 e2 : String) (h : danglingMsg cid e1 = danglingMsg cid e2) :
    e1 = e2 := by
  unfold danglingMsg at h
  exact str_app_cancel_right _ _ _
    (str_app_cancel_left _ _ _ (str_app_cancel_left _ _ _ (str_app_cancel_left _ _ _ h)))

/-- A `DANGLING_EVIDENCE_ID` message starts with `D`. -/
theorem danglingMsg_nth (cid eid : String) : (danglingMsg cid eid).data[0]? = some 'D' := by
  unfold danglingMsg
  rw [str_data_getElem_append _ _ 0 (by decide)]
  decide

/-- An `EVIDENCE_ID_EMPTY` message starts with `E`. -/
theorem emptyIdMsg_nth (cid : String) (idx : Nat) :
    (emptyIdMsg cid idx).data[0]? = some 'E' := by
  unfold emptyIdMsg
  rw [str_data_getElem_append _ _ 0 (by decide)]
  decide

/-- An `EVIDENCE_ID_DUP_IN_CLAIM` message starts with `E`. -/
theorem dupInClaimMsg_nth (c : Claim) : (dupInClaimMsg c).data[0]? = some 'E' := by
  unfold dupInClaimMsg
  rw [str_data_getElem_append _ _ 0 (by decide)]
  decide

/-- A `NON_SPEC_MISSING_EVIDENCE` message starts with `N`. -/
theorem nonSpecMissingMsg_nth (c : Claim) : (nonSpecMissingMsg c).data[0]? = some 'N' := by
  unfold nonSpecMissingMsg
  rw [str_data_getElem_append _ _ 0 (by decide)]
  decide

/-- Every member of the `EVIDENCE_ID_EMPTY` block starts with `E`. -/
theorem emptyIdErrors_head {c : Claim} {m : String}
    (h : m ∈ EvidenceValidator.emptyIdErrors c) : m.data[0]? = some 'E' := by
  unfold EvidenceValidator.emptyIdErrors at h
  obtain ⟨p, _, hp⟩ := List.mem_filterMap.mp h
  by_cases hg : eidTruthy p.2
  · simp [hg] at hp
  · simp [hg] at hp
    rw [← hp]
    exact emptyIdMsg_nth c.claim_id p.1

/-- Every member of the `EVIDENCE_ID_DUP_IN_CLAIM` block starts with `E`. -/
theorem dupInClaimErrors_head {c : Claim} {m : String}
    (h : m ∈ EvidenceValidator.dupInClaimErrors c) : m.data[0]? = some 'E' := by
  unfold EvidenceValidator.dupInClaimErrors at h
  split_ifs at h with hg
  · rcases List.mem_singleton.mp h with rfl
    exact dupInClaimMsg_nth c
  · exact absurd h (List.not_mem_nil m)

/-- Membership of a claim's `DANGLING_EVIDENCE_ID` message in the dangling
block is exactly the guard of the source's loop: the id read non-empty after
trimming and unresolved in the report's evidence collection. -/
theorem mem_danglingErrors_iff (c : Claim) (report : ScientificReport) (eid : String)
    (he : eid ∈ c.evidence_ids) :
    danglingMsg c.claim_id eid ∈ EvidenceValidator.danglingErrors c report ↔
      (eidTruthy eid = true ∧ eid ∉ report.evidence.map EvidenceObject.evidence_id) := by
  unfold EvidenceValidator.danglingErrors
  constructor
  · intro h
    obtain ⟨e, _, hfe⟩ := List.mem_filterMap.mp h
    split_ifs at hfe with hg
    simp only [Bool.and_eq_true, decide_eq_true_eq] at hg
    obtain rfl : e = eid := danglingMsg_inj c.claim_id e eid (Option.some.inj hfe)
    exact hg
  · intro ⟨h1, h2⟩
    exact List.mem_filterMap.mpr ⟨eid, he, by simp [h1, h2]⟩

/-- C10: for a non-SPECULATIVE claim the evidence policy validator returns
its error list, and each `evidence_ids` entry lands in at most one of the
two categories: an entry that is empty or whitespace-only contributes its
`EVIDENCE_ID_EMPTY` error and never a `DANGLING_EVIDENCE_ID` one, while a
`DANGLING_EVIDENCE_ID` error for an entry appears exactly when that entry is
non-empty after trimming and unresolved — the dangling check is applied only
to ids that pass the truthiness-and-strip guard. -/
theorem evidence_id_empty_dangling_exclusive (claim : Claim) (report : ScientificReport)
    (hlab : claim.claim_label ≠ ClaimLabel.SPECULATIVE) (idx : Nat) (eid : String)
    (hidx : claim.evidence_ids[idx]? = some eid) :
    ∃ out, EvidenceValidator.validate_claim_evidence claim report = .ok out ∧
      (eidTruthy eid = false →
         emptyIdMsg claim.claim_id idx ∈ out.2 ∧
         danglingMsg claim.claim_id eid ∉ out.2) ∧
      (danglingMsg claim.claim_id eid ∈ out.2 ↔
         eidTruthy eid = true ∧ eid ∉ report.evidence.map EvidenceObject.evidence_id) := by
  have hmem : eid ∈ claim.evidence_ids := List.getElem?_mem hidx
  refine ⟨(decide ((EvidenceValidator.claimErrors claim report).length = 0),
           EvidenceValidator.claimErrors claim report), ?_, ?_, ?_⟩
  · unfold EvidenceValidator.validate_claim_evidence
    rw [if_neg hlab]
  · intro hfalse
    constructor
    · unfold EvidenceValidator.claimErrors
      refine List.mem_append_right _ (List.mem_append_left _ ?_)
      unfold EvidenceValidator.emptyIdErrors
      exact List.mem_filterMap.mpr
        ⟨(idx, eid), List.mem_enum_iff_getElem?.mpr hidx, by simp [hfalse]⟩
    · intro hd
      unfold EvidenceValidator.claimErrors at hd
      rcases List.mem_append.mp hd with h | h
      · have := danglingMsg_nth claim.claim_id eid
        split_ifs at h with hg
        · rcases List.mem_singleton.mp h with h'
          rw [h'] at this
          rw [nonSpecMissingMsg_nth claim] at this
          exact absurd (Option.some.inj this) (by decide)
        · exact absurd h (List.not_mem_nil _)
      rcases List.mem_append.mp h with h | h
      · have h1 := emptyIdErrors_head h
        rw [danglingMsg_nth claim.claim_id eid] at h1
        exact absurd (Option.some.inj h1).symm (by decide)
      rcases List.mem_append.mp h with h | h
      · have h1 := dupInClaimErrors_head h
        rw [danglingMsg_nth claim.claim_id eid] at h1
        exact absurd (Option.some.inj h1).symm (by decide)
      · rw [mem_danglingErrors_iff claim report eid hmem] at h
        rw [h.1] at hfalse
        exact absurd hfalse (by decide)
  · constructor
    · intro hd
      unfold EvidenceValidator.claimErrors at hd
      rcases List.mem_append.mp hd with h | h
      · split_ifs at h with hg
        · rcases List.mem_singleton.mp h with h'
          have := danglingMsg_nth claim.claim_id eid
          rw [h', nonSpecMissingMsg_nth claim] at this
          exact absurd (Option.some.inj this) (by decide)
        · exact absurd h (List.not_mem_nil _)
      rcases List.mem_append.mp h with h | h
      · have h1 := emptyIdErrors_head h
        rw [danglingMsg_nth claim.claim_id eid] at h1
        exact absurd (Option.some.inj h1).symm (by decide)
      rcases List.mem_append.mp h with h | h
      · have h1 := dupInClaimErrors_head h
        rw [danglingMsg_nth claim.claim_id eid] at h1
        exact absurd (Option.some.inj h1).symm (by decide)
      · exact (mem_danglingErrors_iff claim report eid hmem).mp h
    · intro hg
      unfold EvidenceValidator.claimErrors
      refine List.mem_append_right _ (List.mem_append_right _ (List.mem_append_right _ ?_))
      exact (mem_danglingErrors_iff claim report eid hmem).mpr hg

/-- Witness for `evidence_id_empty_dangling_exclusive` on a CITED claim with
the whitespace-only entry `" "` at position 0 and the unresolved entry
`"ev-missing"` at position 1 of its evidence list. -/
theorem evidence_id_empty_dangling_witness :
    (∃ out, EvidenceValidator.validate_claim_evidence
        ⟨"c1", "s", ClaimLabel.CITED, none, [" ", "ev-missing"], none⟩ ⟨[], [], [], none⟩ =
          .ok out ∧
      (eidTruthy " " = false →
         emptyIdMsg "c1" 0 ∈ out.2 ∧ danglingMsg "c1" " " ∉ out.2) ∧
      (danglingMsg "c1" " " ∈ out.2 ↔
         eidTruthy " " = true ∧
           " " ∉ List.map EvidenceObject.evidence_id ([] : List EvidenceObject))) ∧
    (∃ out, EvidenceValidator.validate_claim_evidence
        ⟨"c1", "s", ClaimLabel.CITED, none, [" ", "ev-missing"], none⟩ ⟨[], [], [], none⟩ =
          .ok out ∧
      (eidTruthy "ev-missing" = false →
         emptyIdMsg "c1" 1 ∈ out.2 ∧ danglingMsg "c1" "ev-missing" ∉ out.2) ∧
      (danglingMsg "c1" "ev-missing" ∈ out.2 ↔
         eidTruthy "ev-missing" = true ∧
           "ev-missing" ∉ List.map EvidenceObject.evidence_id ([] : List EvidenceObject))) :=
  ⟨evidence_id_empty_dangling_exclusive
      ⟨"c1", "s", ClaimLabel.CITED, none, [" ", "ev-missing"], none⟩ ⟨[], [], [], none⟩
      (by decide) 0 " " (by decide),
   evidence_id_empty_dangling_exclusive
      ⟨"c1", "s", ClaimLabel.CITED, none, [" ", "ev-missing"], none⟩ ⟨[], [], [], none⟩
      (by decide) 1 "ev-missing" (by decide)⟩

/-! ### C3 — orphan / duplicate-owner cardinality -/

/-- Whether a structural error is an `ORPHAN_CLAIM` error for the given
claim id. -/
def isOrphanFor (cid : String) (e : ValidationError) : Bool :=
  e.category == "ORPHAN_CLAIM" && e.claim_id == some cid

/-- Whether a structural error is a `DUPLICATE_CLAIM_OWNER` error for the
given claim id. -/
def isDupOwnerFor (cid : String) (e : ValidationError) : Bool :=
  e.category == "DUPLICATE_CLAIM_OWNER" && e.claim_id == some cid

/-- The `DUPLICATE_CLAIM_OWNER` error carrying the full owner list. -/
def dupOwnerError (cid : String) (owners : List String) : ValidationError :=
  ⟨"DUPLICATE_CLAIM_OWNER", "Claim is owned by multiple steps: " ++ pyListRepr owners,
   none, some cid⟩

/-- Looking one key up in a duplicate-free association-pair list yields its
single value, or nothing. -/
theorem filterMap_if_eq_single {α : Type} (l : List String) (b : α) (cid : String)
    (h : l.Nodup) :
    l.filterMap (fun x => if x = cid then some b else none) =
      if cid ∈ l then [b] else [] := by
  induction l with
  | nil => simp
  | cons a l ih =>
      rcases List.nodup_cons.mp h with ⟨hna, hl⟩
      by_cases hac : a = cid
      · subst hac
        have hrest : l.filterMap (fun x => if x = a then some b else none) = [] :=
          List.filterMap_eq_nil_iff.mpr (fun x hx => by
            rw [if_neg]
            intro he
            subst he
            exact hna hx)
        simp [List.filterMap_cons, hrest]
      · have hca : ¬cid = a := fun he => hac he.symm
        simp [List.filterMap_cons, hac, ih hl, List.mem_cons, hca]

/-- One step's contribution to the ownership pairs, looked up at one claim
id. -/
theorem step_pairs_lookup (st : DerivationStep) (cid : String)
    (h : st.claim_ids.Nodup) :
    (st.claim_ids.map (fun claim_id => (claim_id, st.step_id))).filterMap
        (fun p => if p.1 = cid then some p.2 else none) =
      if cid ∈ st.claim_ids then [st.step_id] else [] := by
  rw [List.filterMap_map]
  exact filterMap_if_eq_single st.claim_ids st.step_id cid h

/-- `ownersOf` lists, in document order, the ids of the steps that mention
the claim id — one entry per owning step when no step repeats a claim id
internally. -/
theorem ownersOf_eq (steps : List DerivationStep) (cid : String)
    (h : ∀ st ∈ steps, st.claim_ids.Nodup) :
    StructureValidator.ownersOf steps cid =
      (steps.filter (fun st => decide (cid ∈ st.claim_ids))).map DerivationStep.step_id := by
  induction steps with
  | nil => rfl
  | cons st steps ih =>
      have hst := h st (List.mem_cons_self st steps)
      have hrest : ∀ s ∈ steps, s.claim_ids.Nodup := fun s hs => h s (List.mem_cons_of_mem st hs)
      unfold StructureValidator.ownersOf StructureValidator.ownershipPairs
      rw [List.flatMap_cons, List.filterMap_append]
      unfold StructureValidator.ownersOf StructureValidator.ownershipPairs at ih
      rw [step_pairs_lookup st cid hst, ih hrest]
      by_cases hmem : cid ∈ st.claim_ids
      · simp [List.filter_cons, hmem]
      · simp [List.filter_cons, hmem]

/-- Membership in a dict key list after one insertion. -/
theorem mem_insertKey (ks : List String) (a k : String) :
    k ∈ StructureValidator.insertKey ks a ↔ (k ∈ ks ∨ k = a) := by
  unfold StructureValidator.insertKey
  split_ifs with h
  · constructor
    · exact Or.inl
    · rintro (hk | rfl)
      · exact hk
      · exact h
  · simp [List.mem_append]

/-- Inserting keys keeps the key list duplicate-free. -/
theorem insertKey_nodup (ks : List String) (a : String) (h : ks.Nodup) :
    (StructureValidator.insertKey ks a).Nodup := by
  unfold StructureValidator.insertKey
  split_ifs with hm
  · exact h
  · refine List.nodup_append.mpr ⟨h, List.nodup_singleton a, ?_⟩
    intro x hx hxa
    rcases List.mem_singleton.mp hxa with rfl
    exact hm hx

/-- The dict key list is duplicate-free whatever pairs are inserted. -/
theorem dictKeys_nodup_general (ps : List (String × String)) (acc : List String)
    (h : acc.Nodup) :
    (ps.foldl (fun ks p => StructureValidator.insertKey ks p.1) acc).Nodup := by
  induction ps generalizing acc with
  | nil => exact h
  | cons p ps ih => exact ih _ (insertKey_nodup acc p.1 h)

/-- The dict key list of the ownership dict is duplicate-free. -/
theorem dictKeys_nodup (ps : List (String × String)) :
    (StructureValidator.dictKeys ps).Nodup :=
  dictKeys_nodup_general ps [] List.nodup_nil

/-- A key is in the ownership dict exactly when some pair carries it. -/
theorem mem_dictKeys_general (ps : List (String × String)) (acc : List String) (k : String) :
    k ∈ ps.foldl (fun ks p => StructureValidator.insertKey ks p.1) acc ↔
      (k ∈ acc ∨ k ∈ ps.map Prod.fst) := by
  induction ps generalizing acc with
  | nil => simp
  | cons p ps ih =>
      rw [List.foldl_cons, ih, mem_insertKey]
      simp only [List.map_cons, List.mem_cons]
      tauto

/-- A key is in the ownership dict exactly when some pair carries it. -/
theorem mem_dictKeys (ps : List (String × String)) (k : String) :
    k ∈ StructureValidator.dictKeys ps ↔ k ∈ ps.map Prod.fst := by
  rw [StructureValidator.dictKeys, mem_dictKeys_general]
  simp

/-- The first components of the ownership pairs are the concatenation of all
steps' claim lists. -/
theorem ownershipPairs_map_fst (steps : List DerivationStep) :
    (StructureValidator.ownershipPairs steps).map Prod.fst =
      steps.flatMap DerivationStep.claim_ids := by
  unfold StructureValidator.ownershipPairs
  rw [List.map_flatMap]
  apply List.flatMap_congr
  intro st _
  rw [List.map_map]
  simp [Function.comp_def]

/-- Every error of the claim-reference check is a `DANGLING_CLAIM_ID`. -/
theorem claim_references_category {report : ScientificReport} {e : ValidationError}
    (h : e ∈ StructureValidator._validate_claim_references report) :
    e.category = "DANGLING_CLAIM_ID" := by
  unfold StructureValidator._validate_claim_references at h
  obtain ⟨step, _, hm⟩ := List.mem_flatMap.mp h
  obtain ⟨cid, _, hf⟩ := List.mem_filterMap.mp hm
  split_ifs at hf
  rw [← Option.some.inj hf]

/-- Every error of the dependency check is a `DANGLING_STEP_DEP`. -/
theorem step_dependencies_category {report : ScientificReport} {e : ValidationError}
    (h : e ∈ StructureValidator._validate_step_dependencies report) :
    e.category = "DANGLING_STEP_DEP" := by
  unfold StructureValidator._validate_step_dependencies at h
  obtain ⟨step, _, hm⟩ := List.mem_flatMap.mp h
  obtain ⟨dep, _, hf⟩ := List.mem_filterMap.mp hm
  split_ifs at hf
  rw [← Option.some.inj hf]

/-- Every error of the orphan check is an `ORPHAN_CLAIM`. -/
theorem orphans_category {report : ScientificReport} {e : ValidationError}
    (h : e ∈ StructureValidator._validate_no_orphans report) :
    e.category = "ORPHAN_CLAIM" := by
  unfold StructureValidator._validate_no_orphans at h
  obtain ⟨claim, _, hf⟩ := List.mem_filterMap.mp h
  split_ifs at hf
  rw [← Option.some.inj hf]

/-- Every error of the unique-ownership check is a `DUPLICATE_CLAIM_OWNER`. -/
theorem ownership_category {report : ScientificReport} {e : ValidationError}
    (h : e ∈ StructureValidator._validate_unique_ownership report) :
    e.category = "DUPLICATE_CLAIM_OWNER" := by
  unfold StructureValidator._validate_unique_ownership at h
  obtain ⟨k, _, hf⟩ := List.mem_filterMap.mp h
  split_ifs at hf
  rw [← Option.some.inj hf]

/-- Counting the `ORPHAN_CLAIM` errors for one claim id over the orphan
loop: zero when the id is referenced, otherwise the id's multiplicity in the
claim list. -/
theorem countP_orphans_aux (claims : List Claim) (ref : List String) (cid : String) :
    (claims.filterMap (fun claim =>
        if claim.claim_id ∈ ref then none
        else some (⟨"ORPHAN_CLAIM",
                    "Claim is not referenced by any step: " ++ claim.claim_id,
                    none, some claim.claim_id⟩ : ValidationError))).countP (isOrphanFor cid) =
      if cid ∈ ref then 0 else (claims.map Claim.claim_id).count cid := by
  induction claims with
  | nil => simp
  | cons cl claims ih =>
      rw [List.filterMap_cons]
      by_cases h1 : cl.claim_id ∈ ref
      · rw [if_pos h1, ih]
        by_cases h2 : cid ∈ ref
        · simp [h2]
        · have hne : ¬cl.claim_id = cid := fun he => h2 (he ▸ h1)
          have hne' : ¬cid = cl.claim_id := fun he => hne he.symm
          simp [h2, List.count_cons, hne']
      · rw [if_neg h1, List.countP_cons, ih]
        by_cases h2 : cid ∈ ref
        · have hne : ¬cl.claim_id = cid := fun he => h1 (he ▸ h2)
          simp [h2, isOrphanFor, hne]
        · by_cases h3 : cid = cl.claim_id
          · simp [h2, isOrphanFor, List.count_cons, h3, h1]
          · have hne : ¬cl.claim_id = cid := fun he => h3 he.symm
            simp [h2, isOrphanFor, List.count_cons, h3, hne]

/-- Counting the `DUPLICATE_CLAIM_OWNER` errors for one claim id over the
ownership loop: the id's multiplicity in the key list when it has more than
one owner, zero otherwise. -/
theorem countP_dup_aux (keys : List String) (owners : String → List String) (cid : String) :
    (keys.filterMap (fun k =>
        if (owners k).length > 1 then some (dupOwnerError k (owners k)) else none)).countP
        (isDupOwnerFor cid) =
      if (owners cid).length > 1 then keys.count cid else 0 := by
  induction keys with
  | nil => simp
  | cons k keys ih =>
      rw [List.filterMap_cons]
      by_cases h1 : (owners k).length > 1
      · rw [if_pos h1, List.countP_cons, ih]
        by_cases h2 : cid = k
        · subst h2
          simp [dupOwnerError, isDupOwnerFor, h1, List.count_cons]
        · have hne : ¬k = cid := fun he => h2 he.symm
          simp [dupOwnerError, isDupOwnerFor, h2, hne, List.count_cons]
      · rw [if_neg h1, ih]
        by_cases h2 : cid = k
        · subst h2
          simp [h1]
        · by_cases h3 : (owners cid).length > 1
          · simp [h3, List.count_cons, h2]
          · simp [h3]

/-- C3: cardinality of the orphan and duplicate-owner checks.  For a claim
of a well-formed report (distinct claim ids, per-step duplicate-free claim
lists, both enforced at construction time): referenced by exactly one step —
no `ORPHAN_CLAIM` and no `DUPLICATE_CLAIM_OWNER` error for it; referenced by
no step — exactly one `ORPHAN_CLAIM` error; referenced by exactly two steps
— exactly one `DUPLICATE_CLAIM_OWNER` error, and that error's message
carries both owning step ids. -/
theorem orphan_duplicate_owner_cardinality (report : ScientificReport) (c : Claim)
    (hc : c ∈ report.claims)
    (hids : (report.claims.map Claim.claim_id).Nodup)
    (hsteps : ∀ st ∈ report.steps, st.claim_ids.Nodup) :
    ((report.steps.filter (fun st => decide (c.claim_id ∈ st.claim_ids))).length = 1 →
       (StructureValidator.validate_report report).2.countP (isOrphanFor c.claim_id) = 0 ∧
       (StructureValidator.validate_report report).2.countP (isDupOwnerFor c.claim_id) = 0) ∧
    (report.steps.filter (fun st => decide (c.claim_id ∈ st.claim_ids)) = [] →
       (StructureValidator.validate_report report).2.countP (isOrphanFor c.claim_id) = 1) ∧
    (∀ s1 s2, report.steps.filter (fun st => decide (c.claim_id ∈ st.claim_ids)) = [s1, s2] →
       (StructureValidator.validate_report report).2.countP (isDupOwnerFor c.claim_id) = 1 ∧
       dupOwnerError c.claim_id [s1.step_id, s2.step_id] ∈
         (StructureValidator.validate_report report).2) := by
  have hmemid : c.claim_id ∈ report.claims.map Claim.claim_id :=
    List.mem_map_of_mem Claim.claim_id hc
  have hcount1 : (report.claims.map Claim.claim_id).count c.claim_id = 1 :=
    List.count_eq_one_of_mem hids hmemid
  have herrs : (StructureValidator.validate_report report).2 =
      StructureValidator._validate_claim_references report ++
      (StructureValidator._validate_no_orphans report ++
       (StructureValidator._validate_unique_ownership report ++
        StructureValidator._validate_step_dependencies report)) := rfl
  have hOrefs : (StructureValidator._validate_claim_references report).countP
      (isOrphanFor c.claim_id) = 0 :=
    List.countP_eq_zero.mpr (fun e he => by simp [isOrphanFor, claim_references_category he])
  have hOown : (StructureValidator._validate_unique_ownership report).countP
      (isOrphanFor c.claim_id) = 0 :=
    List.countP_eq_zero.mpr (fun e he => by simp [isOrphanFor, ownership_category he])
  have hOdeps : (StructureValidator._validate_step_dependencies report).countP
      (isOrphanFor c.claim_id) = 0 :=
    List.countP_eq_zero.mpr (fun e he => by simp [isOrphanFor, step_dependencies_category he])
  have hDrefs : (StructureValidator._validate_claim_references report).countP
      (isDupOwnerFor c.claim_id) = 0 :=
    List.countP_eq_zero.mpr (fun e he => by simp [isDupOwnerFor, claim_references_category he])
  have hDorph : (StructureValidator._validate_no_orphans report).countP
      (isDupOwnerFor c.claim_id) = 0 :=
    List.countP_eq_zero.mpr (fun e he => by simp [isDupOwnerFor, orphans_category he])
  have hDdeps : (StructureValidator._validate_step_dependencies report).countP
      (isDupOwnerFor c.claim_id) = 0 :=
    List.countP_eq_zero.mpr (fun e he => by simp [isDupOwnerFor, step_dependencies_category he])
  have hdupcomp := countP_dup_aux
    (StructureValidator.dictKeys (StructureValidator.ownershipPairs report.steps))
    (StructureValidator.ownersOf report.steps) c.claim_id
  unfold dupOwnerError at hdupcomp
  have howners := ownersOf_eq report.steps c.claim_id hsteps
  refine ⟨?_, ?_, ?_⟩
  · intro hF1
    have hFne : report.steps.filter (fun st => decide (c.claim_id ∈ st.claim_ids)) ≠ [] := by
      intro h0
      rw [h0] at hF1
      exact absurd hF1 (by decide)
    obtain ⟨st, hstF⟩ := List.exists_mem_of_ne_nil _ hFne
    have hstmem := List.mem_filter.mp hstF
    have href : c.claim_id ∈ report.steps.flatMap DerivationStep.claim_ids :=
      List.mem_flatMap.mpr ⟨st, hstmem.1, by simpa using hstmem.2⟩
    constructor
    · have horph : (StructureValidator._validate_no_orphans report).countP
          (isOrphanFor c.claim_id) = 0 := by
        unfold StructureValidator._validate_no_orphans
        rw [countP_orphans_aux, if_pos href]
      rw [herrs, List.countP_append, List.countP_append, List.countP_append,
          hOrefs, hOown, hOdeps, horph]
    · have hlen : (StructureValidator.ownersOf report.steps c.claim_id).length = 1 := by
        rw [howners, List.length_map, hF1]
      have hown : (StructureValidator._validate_unique_ownership report).countP
          (isDupOwnerFor c.claim_id) = 0 := by
        unfold StructureValidator._validate_unique_ownership
        rw [hdupcomp, if_neg (by rw [hlen]; decide)]
      rw [herrs, List.countP_append, List.countP_append, List.countP_append,
          hDrefs, hDorph, hDdeps, hown]
  · intro hF0
    have href : c.claim_id ∉ report.steps.flatMap DerivationStep.claim_ids := by
      intro hmem
      obtain ⟨st, hst, hcid⟩ := List.mem_flatMap.mp hmem
      have hstF : st ∈ report.steps.filter (fun st => decide (c.claim_id ∈ st.claim_ids)) :=
        List.mem_filter.mpr ⟨hst, by simpa using hcid⟩
      rw [hF0] at hstF
      exact absurd hstF (List.not_mem_nil st)
    have horph : (StructureValidator._validate_no_orphans report).countP
        (isOrphanFor c.claim_id) = 1 := by
      unfold StructureValidator._validate_no_orphans
      rw [countP_orphans_aux, if_neg href, hcount1]
    rw [herrs, List.countP_append, List.countP_append, List.countP_append,
        hOrefs, hOown, hOdeps, horph]
  · intro s1 s2 hF2
    have hs1F : s1 ∈ report.steps.filter (fun st => decide (c.claim_id ∈ st.claim_ids)) := by
      rw [hF2]
      exact List.mem_cons_self s1 [s2]
    have hs1 := List.mem_filter.mp hs1F
    have href : c.claim_id ∈ report.steps.flatMap DerivationStep.claim_ids :=
      List.mem_flatMap.mpr ⟨s1, hs1.1, by simpa using hs1.2⟩
    have howners2 : StructureValidator.ownersOf report.steps c.claim_id =
        [s1.step_id, s2.step_id] := by
      rw [howners, hF2]
      rfl
    have hkeymem : c.claim_id ∈
        StructureValidator.dictKeys (StructureValidator.ownershipPairs report.steps) := by
      rw [mem_dictKeys, ownershipPairs_map_fst]
      exact href
    have hkeycount : (StructureValidator.dictKeys
        (StructureValidator.ownershipPairs report.steps)).count c.claim_id = 1 :=
      List.count_eq_one_of_mem (dictKeys_nodup _) hkeymem
    constructor
    · have hown : (StructureValidator._validate_unique_ownership report).countP
          (isDupOwnerFor c.claim_id) = 1 := by
        unfold StructureValidator._validate_unique_ownership
        rw [hdupcomp, if_pos (by rw [howners2]; simp), hkeycount]
      rw [herrs, List.countP_append, List.countP_append, List.countP_append,
          hDrefs, hDorph, hDdeps, hown]
    · have hmem : dupOwnerError c.claim_id [s1.step_id, s2.step_id] ∈
          StructureValidator._validate_unique_ownership report := by
        unfold StructureValidator._validate_unique_ownership
        refine List.mem_filterMap.mpr ⟨c.claim_id, hkeymem, ?_⟩
        rw [if_pos (by rw [howners2]; simp), howners2]
        rfl
      rw [herrs]
      exact List.mem_append_right _
        (List.mem_append_right _ (List.mem_append_left _ hmem))

/-- Witness for `orphan_duplicate_owner_cardinality`: a report whose two
steps `A` and `B` both own claim `c1` receives exactly one
`DUPLICATE_CLAIM_OWNER` error, and that error names `A` and `B`. -/
theorem orphan_duplicate_owner_witness :
    (StructureValidator.validate_report
        ⟨[⟨"c1", "s", ClaimLabel.DERIVED, none, [], none⟩],
         [⟨"A", ["c1"], StepStatus.UNCHECKED, [], none⟩,
          ⟨"B", ["c1"], StepStatus.UNCHECKED, [], none⟩], [], none⟩).2.countP
        (isDupOwnerFor "c1") = 1 ∧
    dupOwnerError "c1" ["A", "B"] ∈
      (StructureValidator.validate_report
        ⟨[⟨"c1", "s", ClaimLabel.DERIVED, none, [], none⟩],
         [⟨"A", ["c1"], StepStatus.UNCHECKED, [], none⟩,
          ⟨"B", ["c1"], StepStatus.UNCHECKED, [], none⟩], [], none⟩).2 :=
  (orphan_duplicate_owner_cardinality
      ⟨[⟨"c1", "s", ClaimLabel.DERIVED, none, [], none⟩],
       [⟨"A", ["c1"], StepStatus.UNCHECKED, [], none⟩,
        ⟨"B", ["c1"], StepStatus.UNCHECKED, [], none⟩], [], none⟩
      ⟨"c1", "s", ClaimLabel.DERIVED, none, [], none⟩
      (by decide) (by decide) (by decide)).2.2
    ⟨"A", ["c1"], StepStatus.UNCHECKED, [], none⟩
    ⟨"B", ["c1"], StepStatus.UNCHECKED, [], none⟩ (by decide)
